import Mathlib

/-!
Verification of the GSA review-analysis engine: a shallow embedding of the
scoring, classification and aggregation logic of `bias_detector.py`,
`behavior_analyzer.py`, `gitlab_analyzer.py` and `data_models.py`, together
with theorems checking the documented behaviour of that logic.

Conventions of the embedding:
* Python floats are modelled as exact rationals (`ℚ`); Python ints as `ℤ`/`ℕ`.
* `text.lower()` is a character map; `needle in hay` is an executable
  substring test on character lists; the five fixed `re.search` patterns of
  `toxic_patterns` (word-boundary literals separated by `.*` gaps) are
  executed by a small matcher specialised to that shape (`regexSearch`).
* `defaultdict` groupings preserve first-insertion key order and per-key
  insertion order; they are modelled by `firstOccur` over the key sequence
  together with `List.filter` per key.
* Code that can raise (`ZeroDivisionError`, `ValueError` from `Enum(...)`) is
  modelled with `Option`; divisions that sit behind explicit emptiness guards
  in the source are modelled by total rational division, the guard making the
  denominator nonzero on every path that reaches the division.
* Comparisons of `statistics.stdev`-derived quantities against constants are
  expressed through their squares (`sample_variance`), which keeps every
  definition inside `ℚ`; `min(100, stdev*100) > c` holds exactly when
  `min(10000, variance*10000) > c^2` for the constants `70`, `40` involved.
-/

namespace GSA

/-! ### Python string primitives -/

/-- `text.lower()` followed by conversion to a character list.  The keyword
tables of the source are ASCII, for which `Char.toLower` agrees with Python's
`str.lower`. -/
def lowerChars (s : String) : List Char := s.toList.map Char.toLower

/-- Python's substring containment `needle in hay`. -/
def containsSub (hay : List Char) (needle : List Char) : Bool :=
  (List.range (hay.length + 1)).any fun i =>
    List.take needle.length (List.drop i hay) == needle

/-- Python regex word character (`\w`, ASCII range as used by the patterns). -/
def isWordChar (c : Char) : Bool := c.isAlphanum || c == '_'

/-- One literal word of a `toxic_patterns` regex.  Every word of the five
patterns is preceded by `\b`; `rb` records whether it is also followed by
`\b`. -/
structure Seg where
  w : List Char
  rb : Bool

/-- A `\b` holds before position `i`. -/
def boundaryBefore (cs : List Char) (i : ℕ) : Bool :=
  i == 0 || !(isWordChar (cs.getD (i - 1) ' '))

/-- A `\b` holds after position `j` (exclusive end of a word occurrence). -/
def boundaryAfter (cs : List Char) (j : ℕ) : Bool :=
  j == cs.length || !(isWordChar (cs.getD j ' '))

/-- The word of `s` occurs at position `i` with its required boundaries. -/
def segAt (cs : List Char) (i : ℕ) (s : Seg) : Bool :=
  (List.take s.w.length (List.drop i cs) == s.w) && boundaryBefore cs i &&
    (!s.rb || boundaryAfter cs (i + s.w.length))

/-- The characters between positions `j` and `i` can be consumed by `.*`:
`j ≤ i` and no newline in between (Python `.` does not match `\n`). -/
def gapOk (cs : List Char) (j i : ℕ) : Bool :=
  decide (j ≤ i) && (List.take (i - j) (List.drop j cs)).all fun c => c != '\n'

/-- Match the remaining segments of a pattern, the previous segment having
ended at position `j`; consecutive segments are separated by `.*`. -/
def restMatch (cs : List Char) : List Seg → ℕ → Bool
  | [], _ => true
  | s :: rest, j =>
    (List.range (cs.length + 1)).any fun i =>
      gapOk cs j i && segAt cs i s && restMatch cs rest (i + s.w.length)

/-- `re.search(pattern, cs) is not None` for a pattern given as boundary-anchored
literal words separated by `.*`: an arbitrary prefix may precede the first
word (search semantics). -/
def regexSearch (cs : List Char) : List Seg → Bool
  | [] => true
  | s :: rest =>
    (List.range (cs.length + 1)).any fun i =>
      segAt cs i s && restMatch cs rest (i + s.w.length)

/-- `", ".join(l)`. -/
def joinComma : List String → String
  | [] => ""
  | [a] => a
  | a :: rest => a ++ ", " ++ joinComma rest

def firstOccurAux : List String → List String → List String
  | [], acc => acc.reverse
  | a :: l, acc => if a ∈ acc then firstOccurAux l acc else firstOccurAux l (a :: acc)

/-- The distinct elements of `l` in order of first occurrence: the key order a
Python `defaultdict` built by one pass over `l` ends up with. -/
def firstOccur (l : List String) : List String := firstOccurAux l []

/-- `statistics.mean`. -/
def mean (l : List ℚ) : ℚ := l.sum / (l.length : ℚ)

/-- The square of `statistics.stdev` (sample standard deviation, `n - 1`
denominator), kept squared so that the value stays rational; it is only ever
compared against squared constants below. -/
def sample_variance (l : List ℚ) : ℚ :=
  ((l.map fun x => (x - mean l) ^ 2).sum) / ((l.length : ℚ) - 1)

/-! ### `data_models.py` -/

/-- `SentimentScore` (dataclass, `data_models.py`). -/
structure SentimentScore where
  textblob_score : ℚ
  vader_compound : ℚ
  vader_positive : ℚ
  vader_neutral : ℚ
  vader_negative : ℚ

/-- `SentimentScore.is_negative`. -/
def SentimentScore.is_negative (s : SentimentScore) : Bool :=
  decide (s.textblob_score < -(2/10)) || decide (s.vader_compound < -(2/10))

/-- `SentimentScore.is_positive`. -/
def SentimentScore.is_positive (s : SentimentScore) : Bool :=
  decide (s.textblob_score > 2/10) && decide (s.vader_compound > 2/10)

/-- `SentimentScore.is_neutral`. -/
def SentimentScore.is_neutral (s : SentimentScore) : Bool :=
  !s.is_negative && !s.is_positive

/-- `ApprovalStatus` (enum, `data_models.py`). -/
inductive ApprovalStatus
  | approved
  | requested_changes
  | commented
deriving DecidableEq, Repr

/-- `ApprovalStatus(value)` on a string: Python's `Enum` call raises
`ValueError` on a string that is not one of the three member values, modelled
as `none`. -/
def ApprovalStatus.ofString : String → Option ApprovalStatus
  | "approved" => some .approved
  | "requested_changes" => some .requested_changes
  | "commented" => some .commented
  | _ => none

/-- `ReviewComment` (dataclass, `data_models.py`); the derived analysis fields
that no verified function reads (`toxicity_score`, `urgency_level`, …) are
omitted. -/
structure ReviewComment where
  id : String
  author : String
  body : String
  created_at : ℤ
  mr_id : ℤ
  mr_title : String
  mr_author : String
  approval_status : ApprovalStatus
  sentiment : SentimentScore

/-- `BiasRiskLevel` (enum, `data_models.py`). -/
inductive BiasRiskLevel
  | low
  | medium
  | high
deriving DecidableEq, Repr

/-! ### `bias_detector.py` — keyword tables and per-comment scorers -/

namespace BiasDetector

/-- `BiasDetector.negative_keywords` (note the source lists `horrible`
twice). -/
def negative_keywords : List String :=
  ["terrible", "awful", "horrible", "stupid", "dumb", "ridiculous",
   "waste", "nonsense", "garbage", "trash", "pathetic", "useless",
   "incompetent", "lazy", "sloppy", "unprofessional", "horrible",
   "disgusting", "idiotic", "moronic", "shameful"]

def seg (w : String) (rb : Bool) : Seg := ⟨w.toList, rb⟩

/-- `BiasDetector.toxic_patterns`: the five `re.search` patterns, broken into
their boundary-anchored words.  In `\bwhat.*\bwrong.*\byou\b` only `you`
carries a trailing `\b`. -/
def toxic_patterns : List (List Seg) :=
  [[seg "bad" true, seg "code" true],
   [seg "wrong" true, seg "way" true],
   [seg "hate" true, seg "this" true],
   [seg "terrible" true, seg "implementation" true],
   [seg "what" false, seg "wrong" false, seg "you" true]]

/-- `BiasDetector.constructive_keywords`. -/
def constructive_keywords : List String :=
  ["suggest", "recommend", "consider", "try", "maybe", "could",
   "would", "perhaps", "how about", "what if", "alternative"]

/-- The `personal_attacks` list local to `_calculate_toxicity_score`. -/
def personal_attacks : List String :=
  ["you are", "you\x27re", "your fault", "you did", "you made"]

/-- `BiasDetector._calculate_toxicity_score`. -/
def calculate_toxicity_score (text : String) : ℚ :=
  let text_lower := lowerChars text
  let negative_count := negative_keywords.countP fun k => containsSub text_lower k.toList
  let pattern_matches := toxic_patterns.countP fun p => regexSearch text_lower p
  let personal_attack_count := personal_attacks.countP fun a => containsSub text_lower a.toList
  let constructive_count := constructive_keywords.countP fun k => containsSub text_lower k.toList
  let toxicity_score : ℚ :=
    (negative_count : ℚ) * (2/10) + (pattern_matches : ℚ) * (3/10)
      + (personal_attack_count : ℚ) * (25/100) - (constructive_count : ℚ) * (1/10)
  max 0 (min 1 toxicity_score)

/-- The three indicator lists local to `_assess_constructiveness`. -/
def constructive_indicators : List String :=
  ["suggest", "recommend", "consider", "try", "how about", "maybe", "could"]

def destructive_indicators : List String :=
  ["bad", "terrible", "wrong", "stupid", "awful"]

def solution_indicators : List String :=
  ["here is", "you can", "try this", "example", "documentation"]

/-- `BiasDetector._assess_constructiveness` (Python ints). -/
def assess_constructiveness (text : String) : ℤ :=
  let text_lower := lowerChars text
  let score : ℤ := 50
  let score := score + 5 * (constructive_indicators.countP fun w => containsSub text_lower w.toList)
  let score := score + 10 * (solution_indicators.countP fun w => containsSub text_lower w.toList)
  let score := score - 10 * (destructive_indicators.countP fun w => containsSub text_lower w.toList)
  let score :=
    if containsSub text_lower "http".toList || containsSub text_lower "example".toList then
      score + 15
    else score
  max 0 (min 100 score)

/-! ### `bias_detector.py` — per-reviewer aggregation -/

/-- Threshold fields set in `BiasDetector.__init__`. -/
def negative_sentiment_threshold : ℚ := -(2/10)

def sentiment_variance_threshold : ℚ := 4/10

def excessive_comment_threshold : ℕ := 15

/-- The comments of one reviewer, in order: the bucket
`reviewer_sentiments[reviewer]` etc. of the grouping pass of
`_analyze_individual_developer_treatment`. -/
def comments_of (comments : List ReviewComment) (reviewer : String) : List ReviewComment :=
  comments.filter fun c => c.author == reviewer

/-- The per-reviewer counters `reviewer_actions[reviewer]`. -/
structure Actions where
  approved : ℕ
  requested_changes : ℕ
  commented : ℕ
deriving DecidableEq, Repr

def actions_of (comments : List ReviewComment) (reviewer : String) : Actions :=
  ⟨(comments_of comments reviewer).countP fun c => c.approval_status == .approved,
   (comments_of comments reviewer).countP fun c => c.approval_status == .requested_changes,
   (comments_of comments reviewer).countP fun c => c.approval_status == .commented⟩

/-- `sum(actions.values())`. -/
def Actions.total (a : Actions) : ℕ := a.approved + a.requested_changes + a.commented

/-- The `requested_changes` comments collected into
`reviewer_blocking_behavior[reviewer]` during the grouping pass. -/
def blocking_comments (comments : List ReviewComment) (reviewer : String) : List ReviewComment :=
  (comments_of comments reviewer).filter fun c => c.approval_status == .requested_changes

/-- The part of the `_analyze_blocking_patterns` result dict that downstream
code reads: `frequency`, and `avg_constructiveness` — a key the source dict
only has when the behaviour list is nonempty, and which is only ever read
under a `frequency > 0` guard; here it defaults to `0` in the empty case. -/
structure BlockingAnalysis where
  frequency : ℕ
  avg_constructiveness : ℚ
deriving DecidableEq, Repr

/-- `BiasDetector._analyze_blocking_patterns`, restricted to the fields read
downstream (the `patterns` / `severity_distribution` / `common_reasons`
entries of the source dict are presentation-only). -/
def analyze_blocking_patterns (blocking : List ReviewComment) : BlockingAnalysis :=
  if blocking.isEmpty then ⟨0, 0⟩
  else
    ⟨blocking.length,
     ((blocking.map fun c => (assess_constructiveness c.body : ℚ)).sum) / (blocking.length : ℚ)⟩

/-- The guarded ratio idiom `x / total if total > 0 else 0` of the source. -/
def guarded_rate (num den : ℕ) : ℚ := if 0 < den then (num : ℚ) / (den : ℚ) else 0

/-- The `composite_score` computed inside `_determine_treatment_level`. -/
def composite_score (avg_sentiment avg_toxicity : ℚ) (actions : Actions)
    (total_reviews : ℕ) (blocking_analysis : BlockingAnalysis) : ℚ :=
  let sentiment_score := avg_sentiment
  let toxicity_penalty := -avg_toxicity * (5/10)
  let blocking_penalty : ℚ :=
    if 0 < blocking_analysis.frequency then
      if guarded_rate actions.requested_changes total_reviews > 7/10 then -(3/10)
      else if blocking_analysis.avg_constructiveness < 40 then -(2/10)
      else 0
    else 0
  sentiment_score + toxicity_penalty + blocking_penalty

/-- The threshold ladder of `_determine_treatment_level` (the `level` entry of
the returned dict; `color`/`icon` are presentation-only). -/
def classify_composite (composite_score : ℚ) : String :=
  if composite_score ≥ 3/10 then "Very Supportive"
  else if composite_score ≥ 1/10 then "Supportive"
  else if composite_score ≥ -(1/10) then "Neutral"
  else if composite_score ≥ -(3/10) then "Critical"
  else if composite_score ≥ -(5/10) then "Very Critical"
  else "Potentially Toxic"

/-- `BiasDetector._determine_treatment_level`. -/
def determine_treatment_level (avg_sentiment avg_toxicity : ℚ) (actions : Actions)
    (total_reviews : ℕ) (blocking_analysis : BlockingAnalysis) : String :=
  classify_composite
    (composite_score avg_sentiment avg_toxicity actions total_reviews blocking_analysis)

/-- The constructive-keyword list local to the blocking check of
`_identify_negative_patterns`. -/
def blocking_constructive_keywords : List String :=
  ["suggest", "recommend", "consider", "try", "example"]

/-- `BiasDetector._identify_negative_patterns`.  Total: every division of the
source sits behind the `if not reviewer_comments: return patterns` guard
(`avg_sentiment`) or is a multiplication on the comparison side. -/
def identify_negative_patterns (reviewer : String) (comments : List ReviewComment) :
    List String :=
  let reviewer_comments := comments.filter fun c => c.author == reviewer
  if reviewer_comments.isEmpty then []
  else
    let mr_titles := firstOccur (reviewer_comments.map fun c => c.mr_title)
    let counts := mr_titles.map fun t => reviewer_comments.countP fun c => c.mr_title == t
    let excessive_mrs := counts.countP fun n => decide (excessive_comment_threshold < n)
    let p1 : List String :=
      if (excessive_mrs : ℚ) > (mr_titles.length : ℚ) * (3/10) then
        ["Tends to over-comment on merge requests"]
      else []
    let sentiments := reviewer_comments.map fun c => c.sentiment.textblob_score
    let avg_sentiment := sentiments.sum / (sentiments.length : ℚ)
    let p2 : List String :=
      if avg_sentiment < -(3/10) then ["Consistently negative sentiment in reviews"] else []
    let short_critical := reviewer_comments.countP fun c =>
      decide (c.body.length < 50) && decide (c.sentiment.textblob_score < -(2/10))
    let p3 : List String :=
      if (short_critical : ℚ) > (reviewer_comments.length : ℚ) * (4/10) then
        ["Shows nitpicking behavior with short critical comments"]
      else []
    let change_requests := reviewer_comments.filter fun c =>
      c.approval_status == .requested_changes
    let p4 : List String :=
      if change_requests.isEmpty then []
      else
        let non_constructive := change_requests.countP fun c =>
          !(blocking_constructive_keywords.any fun k => containsSub (lowerChars c.body) k.toList)
        if (non_constructive : ℚ) > (change_requests.length : ℚ) * (5/10) then
          ["Blocks MRs without providing constructive feedback"]
        else []
    p1 ++ p2 ++ p3 ++ p4

/-- The entry `reviewer_stats[reviewer]` of
`_analyze_individual_developer_treatment`, restricted to the fields read by
the claims (`treatment_color`/`treatment_icon`, `communication_style`,
`blocking_analysis`, `negative_comments` are presentation-only and omitted). -/
structure ReviewerStat where
  avg_sentiment : ℚ
  avg_toxicity : ℚ
  review_count : ℕ
  treatment : String
  approval_rate : ℚ
  change_request_rate : ℚ
  negative_patterns : List String
deriving DecidableEq, Repr

/-- One entry of the `reviewer_stats` dict.  The reviewer is a key of the
grouping dicts, so its comment bucket is nonempty whenever this is reached,
making the two mean denominators nonzero. -/
def reviewer_stat (comments : List ReviewComment) (reviewer : String) : ReviewerStat :=
  let rc := comments_of comments reviewer
  let sentiments := rc.map fun c => c.sentiment.textblob_score
  let avg_sentiment := sentiments.sum / (sentiments.length : ℚ)
  let toxicity := rc.map fun c => calculate_toxicity_score c.body
  let avg_toxicity := toxicity.sum / (toxicity.length : ℚ)
  let actions := actions_of comments reviewer
  let total_reviews := actions.total
  let blocking_analysis := analyze_blocking_patterns (blocking_comments comments reviewer)
  ⟨avg_sentiment, avg_toxicity, sentiments.length,
   determine_treatment_level avg_sentiment avg_toxicity actions total_reviews blocking_analysis,
   guarded_rate actions.approved total_reviews,
   guarded_rate actions.requested_changes total_reviews,
   identify_negative_patterns reviewer comments⟩

/-- The reviewers of a developer's comment group, in first-appearance order
(the key order of `reviewer_sentiments`). -/
def reviewers (comments : List ReviewComment) : List String :=
  firstOccur (comments.map fun c => c.author)

/-- `DeveloperTreatment` (dataclass, `data_models.py`); the `recommendations`
field (fixed presentation text assembled by
`_generate_developer_recommendations`) is omitted, no verified function reads
it. -/
structure DeveloperTreatment where
  developer_name : String
  overall_sentiment : ℚ
  total_reviews : ℕ
  total_negative_reviews : ℕ
  sentiment_range : ℚ
  bias_indicators : List String
  bias_risk : BiasRiskLevel
  reviewer_stats : List (String × ReviewerStat)
deriving DecidableEq, Repr

/-- `BiasDetector._analyze_individual_developer_treatment`. -/
def analyze_individual_developer_treatment (developer : String)
    (comments : List ReviewComment) : DeveloperTreatment :=
  let all_sentiments := comments.map fun c => c.sentiment.textblob_score
  let overall_sentiment : ℚ :=
    if all_sentiments.isEmpty then 0 else all_sentiments.sum / (all_sentiments.length : ℚ)
  match reviewers comments with
  | [] =>
    ⟨developer, overall_sentiment, comments.length, 0, 0, [], .low, []⟩
  | r0 :: rrest =>
    let reviewer_stats := (r0 :: rrest).map fun r => (r, reviewer_stat comments r)
    -- `max(...)`/`min(...)` over the nonempty stats by `avg_sentiment`; only the
    -- extremal averages feed `sentiment_range`, so tie-breaking is immaterial.
    let avg0 := (reviewer_stat comments r0).avg_sentiment
    let avgsRest := rrest.map fun r => (reviewer_stat comments r).avg_sentiment
    let most_supportive := avgsRest.foldl max avg0
    let least_supportive := avgsRest.foldl min avg0
    let sentiment_range := most_supportive - least_supportive
    let critical_reviewers := reviewer_stats.filter fun p =>
      ["Critical", "Very Critical", "Potentially Toxic"].contains p.2.treatment
    let high_toxicity_reviewers :=
      (reviewer_stats.filter fun p => decide (p.2.avg_toxicity > 5/10)).map Prod.fst
    let bias_indicators : List String :=
      (if overall_sentiment < negative_sentiment_threshold then
        ["Receives generally negative feedback across the team"] else [])
      ++ (if sentiment_range > sentiment_variance_threshold + 2/10 then
        ["Very inconsistent treatment from different reviewers"] else [])
      ++ (if (critical_reviewers.length : ℚ) > (reviewer_stats.length : ℚ) * (5/10) then
        ["Majority of reviewers are critical"] else [])
      ++ (if !high_toxicity_reviewers.isEmpty then
        ["Potentially toxic behavior from: " ++ joinComma high_toxicity_reviewers] else [])
    let bias_risk : BiasRiskLevel :=
      if bias_indicators.length ≥ 3 then .high
      else if bias_indicators.length ≥ 2 then .medium
      else .low
    ⟨developer, overall_sentiment, comments.length,
     comments.countP fun c => decide (c.sentiment.textblob_score < negative_sentiment_threshold),
     sentiment_range, bias_indicators, bias_risk, reviewer_stats⟩

/-! ### `bias_detector.py` — `calculate_bias_indicators` (team-wide) -/

/-- The `author_sentiments` buckets of `calculate_bias_indicators`: textblob
scores grouped by `mr_author`, keys in first-appearance order. -/
def author_sentiments (comments : List ReviewComment) : List (String × List ℚ) :=
  (firstOccur (comments.map fun c => c.mr_author)).map fun a =>
    (a, (comments.filter fun c => c.mr_author == a).map fun c => c.sentiment.textblob_score)

/-- The `sentiment_variance` dict of `calculate_bias_indicators`: entries for
authors with at least 3 comments. -/
def sentiment_variance (comments : List ReviewComment) : List (String × List ℚ) :=
  (author_sentiments comments).filter fun p => decide (3 ≤ p.2.length)

/-- The names collected into `potential_bias_targets`. -/
def potential_bias_targets (comments : List ReviewComment) : List String :=
  ((sentiment_variance comments).filter fun p =>
    decide (mean p.2 < negative_sentiment_threshold) && decide (5 ≤ p.2.length)).map Prod.fst

/-- The `author_means` list of the overall-bias-score computation. -/
def author_means (comments : List ReviewComment) : List ℚ :=
  ((author_sentiments comments).filter fun p => decide (3 ≤ p.2.length)).map fun p => mean p.2

/-- The square of `overall_bias_score = min(100, stdev(author_means) * 100)`
(`0` when either guard of the source fails); squaring commutes with the
`min` of the two nonnegative operands. -/
def overall_bias_score_sq (comments : List ReviewComment) : ℚ :=
  if 1 < (author_sentiments comments).length then
    if 1 < (author_means comments).length then
      min 10000 (sample_variance (author_means comments) * 10000)
    else 0
  else 0

/-- The `overall_risk` ladder of `calculate_bias_indicators`; the comparisons
`score > 70` / `score > 40` are taken on squares (`> 4900` / `> 1600`). -/
def overall_risk (comments : List ReviewComment) : BiasRiskLevel :=
  if overall_bias_score_sq comments > 4900 ∨ 0 < (potential_bias_targets comments).length then
    .high
  else if overall_bias_score_sq comments > 1600 ∨ 0 < (potential_bias_targets comments).length then
    .medium
  else .low

end BiasDetector

/-! ### `behavior_analyzer.py` -/

namespace BehaviorAnalyzer

/-- `ReviewComment` (dataclass, `models.py`) as `behavior_analyzer.py` consumes
it: flat sentiment scalar and string-typed approval status; the enhanced
fields no verified function reads are omitted. -/
structure BAReviewComment where
  author : String
  mr_author : String
  mr_title : String
  body : String
  sentiment_textblob : ℚ
  approval_status : String
  created_at : ℤ

/-- Python division: raises `ZeroDivisionError` on a zero denominator. -/
def safeDiv (a b : ℚ) : Option ℚ := if b = 0 then none else some (a / b)

def excessive_comment_threshold : ℕ := 15

/-- `BehaviorAnalyzer._identify_negative_patterns`.  Unlike the
`bias_detector.py` twin, the source has no emptiness guard: the very first
statement divides by `len(comments)`, so the empty comment list raises
`ZeroDivisionError` (modelled by `none`).  Its constructiveness helper
`_assess_constructiveness` is textually identical to the one of
`bias_detector.py` and is shared here. -/
def identify_negative_patterns (reviewer : String) (comments : List BAReviewComment) :
    Option (List String) := do
  let _ := reviewer
  let sentiments := comments.map fun c => c.sentiment_textblob
  let avg_sentiment ← safeDiv sentiments.sum (sentiments.length : ℚ)
  let p1 : List String :=
    if avg_sentiment < -(3/10) then ["Consistently negative sentiment in reviews"] else []
  let mr_titles := firstOccur (comments.map fun c => c.mr_title)
  let counts := mr_titles.map fun t => comments.countP fun c => c.mr_title == t
  let excessive_comment_mrs := counts.countP fun n => decide (excessive_comment_threshold < n)
  let p2 : List String :=
    if (excessive_comment_mrs : ℚ) > (mr_titles.length : ℚ) * (3/10) then
      ["Tends to over-comment on merge requests"]
    else []
  let short_critical := comments.countP fun c =>
    decide (c.body.length < 50) && decide (c.sentiment_textblob < -(2/10))
  let p3 : List String :=
    if (short_critical : ℚ) > (comments.length : ℚ) * (4/10) then
      ["Shows nitpicking behavior with short critical comments"]
    else []
  let change_requests := comments.filter fun c => c.approval_status == "requested_changes"
  let low_constructiveness_blocks := change_requests.countP fun c =>
    decide (BiasDetector.assess_constructiveness c.body < 40)
  let p4 : List String :=
    if (low_constructiveness_blocks : ℚ) > (change_requests.length : ℚ) * (5/10) then
      ["Blocks MRs without providing constructive feedback"]
    else []
  pure (p1 ++ p2 ++ p3 ++ p4)

end BehaviorAnalyzer

/-! ### `gitlab_analyzer.py` -/

namespace GitlabAnalyzer

def approval_keywords : List String :=
  ["approved", "lgtm", "looks good", "approve", "ship it",
   ":+1:", "👍", ":thumbsup:", "ready to merge"]

def changes_keywords : List String :=
  ["request changes", "needs changes", "please fix", "fix this",
   "don\x27t merge", "not ready", "block", "blocking", "nack",
   ":-1:", "👎", ":thumbsdown:"]

/-- `GitLabAnalyzer._determine_approval_status` (keyword scan over the
lower-cased note body; `commented` when nothing matches). -/
def determine_approval_status (body : String) : String :=
  let body_lower := lowerChars body
  if approval_keywords.any fun k => containsSub body_lower k.toList then "approved"
  else if changes_keywords.any fun k => containsSub body_lower k.toList then "requested_changes"
  else "commented"

end GitlabAnalyzer

/-! ### Reference definitions written from the claims' wording -/

namespace Spec

/-- C5's reference toxicity definition stated as the claim words it: a sum of
per-term contributions (0.2 per negative keyword present, 0.3 per matching
pattern, 0.25 per attack phrase, minus 0.1 per constructive keyword), clamped
to [0, 1]. -/
def toxicity_spec (text : String) : ℚ :=
  let t := lowerChars text
  max 0 (min 1
    ((BiasDetector.negative_keywords.map fun k =>
        if containsSub t k.toList then (2/10 : ℚ) else 0).sum
      + (BiasDetector.toxic_patterns.map fun p =>
        if regexSearch t p then (3/10 : ℚ) else 0).sum
      + (BiasDetector.personal_attacks.map fun a =>
        if containsSub t a.toList then (25/100 : ℚ) else 0).sum
      - (BiasDetector.constructive_keywords.map fun k =>
        if containsSub t k.toList then (1/10 : ℚ) else 0).sum))

/-- C6's reference constructiveness definition stated as the claim words it:
50, plus 5 per constructive indicator present, plus 10 per solution
indicator, minus 10 per destructive indicator, plus a 15-point bonus for a
URL marker or the word `example`, clamped to [0, 100]. -/
def constructiveness_spec (text : String) : ℤ :=
  let t := lowerChars text
  let raw : ℤ := 50
    + (BiasDetector.constructive_indicators.map fun w =>
        if containsSub t w.toList then (5 : ℤ) else 0).sum
    + (BiasDetector.solution_indicators.map fun w =>
        if containsSub t w.toList then (10 : ℤ) else 0).sum
    - (BiasDetector.destructive_indicators.map fun w =>
        if containsSub t w.toList then (10 : ℤ) else 0).sum
    + (if containsSub t "http".toList || containsSub t "example".toList then 15 else 0)
  max 0 (min 100 raw)

/-- C1's blocking penalty as worded by the claim: `-0.3` when the
change-request rate exceeds `0.7`, else `-0.2` when at least one blocking
event exists and the average blocking constructiveness is below `40`, else
`0`. -/
def blocking_penalty_claim (change_request_rate : ℚ) (has_blocking : Bool)
    (avg_blocking_constructiveness : ℚ) : ℚ :=
  if change_request_rate > 7/10 then -(3/10)
  else if has_blocking && decide (avg_blocking_constructiveness < 40) then -(2/10)
  else 0

/-- Number of comments on MRs authored by `a`. -/
def author_count (comments : List ReviewComment) (a : String) : ℕ :=
  (comments.filter fun c => c.mr_author == a).length

/-- Mean textblob sentiment over the comments on MRs authored by `a`. -/
def author_mean (comments : List ReviewComment) (a : String) : ℚ :=
  mean
    ((comments.filter fun c => c.mr_author == a).map fun c => c.sentiment.textblob_score)

/-- Number of distinct MR authors with at least 3 comments ("qualifying
authors" of C3). -/
def qualifying_author_count (comments : List ReviewComment) : ℕ :=
  (firstOccur (comments.map fun c => c.mr_author)).countP fun a =>
    decide (3 ≤ author_count comments a)

/-- Some author is flagged in the sense C3 words it (mean below −0.3, at
least 5 samples). -/
def any_flagged_claim (comments : List ReviewComment) : Bool :=
  (firstOccur (comments.map fun c => c.mr_author)).any fun a =>
    decide (5 ≤ author_count comments a) && decide (author_mean comments a < -(3/10))

/-- The squared overall bias score as C3 words it: zero unless at least two
qualifying authors exist. -/
def overall_bias_score_sq_claim (comments : List ReviewComment) : ℚ :=
  if 2 ≤ qualifying_author_count comments then
    min 10000 (sample_variance (BiasDetector.author_means comments) * 10000)
  else 0

/-- The overall risk ladder exactly as C3 words it, with its −0.3 flagging
threshold. -/
def overall_risk_claim (comments : List ReviewComment) : BiasRiskLevel :=
  if overall_bias_score_sq_claim comments > 4900 ∨ any_flagged_claim comments then .high
  else if overall_bias_score_sq_claim comments > 1600 ∨ any_flagged_claim comments then .medium
  else .low

/-- Some author is flagged at the code's threshold (mean below −0.2, at least
5 samples) — the amended form of C3's flagging condition. -/
def any_flagged_spec (comments : List ReviewComment) : Bool :=
  (firstOccur (comments.map fun c => c.mr_author)).any fun a =>
    decide (5 ≤ author_count comments a) && decide (author_mean comments a < -(2/10))

/-- C4: the developer's overall mean textblob sentiment. -/
def overall_mean (comments : List ReviewComment) : ℚ :=
  mean (comments.map fun c => c.sentiment.textblob_score)

/-- C4: one reviewer's mean textblob sentiment over the developer's comments. -/
def reviewer_mean (comments : List ReviewComment) (r : String) : ℚ :=
  mean ((comments.filter fun c => c.author == r).map fun c => c.sentiment.textblob_score)

/-- C4: one reviewer's mean toxicity over the developer's comments. -/
def reviewer_toxicity_mean (comments : List ReviewComment) (r : String) : ℚ :=
  mean ((comments.filter fun c => c.author == r).map fun c =>
    BiasDetector.calculate_toxicity_score c.body)

/-- C4: max reviewer mean sentiment minus min reviewer mean sentiment. -/
def sentiment_range_spec (comments : List ReviewComment) : ℚ :=
  match (BiasDetector.reviewers comments).map (reviewer_mean comments) with
  | [] => 0
  | a :: l => l.foldl max a - l.foldl min a

/-- C4: how many reviewers classify as Critical, Very Critical or Potentially
Toxic. -/
def critical_count (comments : List ReviewComment) : ℕ :=
  (BiasDetector.reviewers comments).countP fun r =>
    ["Critical", "Very Critical", "Potentially Toxic"].contains
      (BiasDetector.reviewer_stat comments r).treatment

/-- C4: the reviewers whose average toxicity exceeds 0.5. -/
def toxic_reviewers (comments : List ReviewComment) : List String :=
  (BiasDetector.reviewers comments).filter fun r =>
    decide (reviewer_toxicity_mean comments r > 5/10)

end Spec

/-! ### Concrete inputs used by the claim checks -/

def mkComment (id author mr_author mr_title body : String) (status : ApprovalStatus)
    (tb : ℚ) : ReviewComment :=
  ⟨id, author, body, 0, 1, mr_title, mr_author, status, ⟨tb, 0, 0, 0, 0⟩⟩

/-- C2's scenario: five `requested_changes` comments by one reviewer on
developer A's MRs, sentiment −0.5 each, a body matching no scored keyword. -/
def c2_comments : List ReviewComment :=
  [mkComment "1" "reviewer1" "devA" "Feature X" "no" .requested_changes (-(5/10)),
   mkComment "2" "reviewer1" "devA" "Feature X" "no" .requested_changes (-(5/10)),
   mkComment "3" "reviewer1" "devA" "Feature X" "no" .requested_changes (-(5/10)),
   mkComment "4" "reviewer1" "devA" "Feature X" "no" .requested_changes (-(5/10)),
   mkComment "5" "reviewer1" "devA" "Feature X" "no" .requested_changes (-(5/10))]

/-- C3's counterexample input: MR author `alice` with five comments of mean
−0.25 (below the code's −0.2 flagging threshold but above the claim's −0.3),
MR author `bob` with three such comments, so that both qualify and the
author means have zero variance. -/
def c3_comments : List ReviewComment :=
  [mkComment "1" "rev" "alice" "MR a" "ok" .commented (-(1/4)),
   mkComment "2" "rev" "alice" "MR a" "ok" .commented (-(1/4)),
   mkComment "3" "rev" "alice" "MR a" "ok" .commented (-(1/4)),
   mkComment "4" "rev" "alice" "MR a" "ok" .commented (-(1/4)),
   mkComment "5" "rev" "alice" "MR a" "ok" .commented (-(1/4)),
   mkComment "6" "rev" "bob" "MR b" "ok" .commented (-(1/4)),
   mkComment "7" "rev" "bob" "MR b" "ok" .commented (-(1/4)),
   mkComment "8" "rev" "bob" "MR b" "ok" .commented (-(1/4))]

/-- A one-comment group used to instantiate hypotheses at a concrete input. -/
def c4_comments : List ReviewComment :=
  [mkComment "1" "r1" "dev" "MR 1" "looks fine" .approved (1/10)]

/-! ### Helper lemmas -/

/-- A sum of per-element `if`-contributions is the hit count times the
contribution. -/
theorem sum_ite_countP {R : Type} [Semiring R] {α : Type} (c : R) (p : α → Bool)
    (l : List α) :
    (l.map fun x => if p x then c else 0).sum = (l.countP p : R) * c := by
  induction l with
  | nil => simp
  | cons a l ih =>
    simp only [List.map_cons, List.sum_cons, ih, List.countP_cons]
    by_cases h : p a <;> simp [h, add_mul, add_comm]

theorem mem_firstOccurAux {a : String} : ∀ {l acc : List String},
    a ∈ firstOccurAux l acc ↔ a ∈ l ∨ a ∈ acc := by
  intro l
  induction l with
  | nil => intro acc; simp [firstOccurAux]
  | cons b l ih =>
    intro acc
    by_cases h : b ∈ acc
    · simp only [firstOccurAux, if_pos h, ih, List.mem_cons]
      constructor
      · rintro (h1 | h2) <;> tauto
      · rintro ((rfl | h1) | h2) <;> tauto
    · simp only [firstOccurAux, if_neg h, ih, List.mem_cons]
      tauto

theorem mem_firstOccur {a : String} {l : List String} : a ∈ firstOccur l ↔ a ∈ l := by
  simp [firstOccur, mem_firstOccurAux]

theorem firstOccur_ne_nil {l : List String} (h : l ≠ []) : firstOccur l ≠ [] := by
  obtain ⟨b, t, rfl⟩ := List.exists_cons_of_ne_nil h
  intro hcon
  have : b ∈ firstOccur (b :: t) := mem_firstOccur.mpr (List.mem_cons_self b t)
  simp [hcon] at this

/-- Evaluation helper: the toxicity score in terms of the four keyword hit
counts (which are themselves kernel-computable). -/
theorem toxicity_eval (text : String) (n1 n2 n3 n4 : ℕ)
    (h1 : List.countP (fun k => containsSub (lowerChars text) k.toList)
      BiasDetector.negative_keywords = n1)
    (h2 : List.countP (fun p => regexSearch (lowerChars text) p)
      BiasDetector.toxic_patterns = n2)
    (h3 : List.countP (fun a => containsSub (lowerChars text) a.toList)
      BiasDetector.personal_attacks = n3)
    (h4 : List.countP (fun k => containsSub (lowerChars text) k.toList)
      BiasDetector.constructive_keywords = n4) :
    BiasDetector.calculate_toxicity_score text
      = max 0 (min 1 ((n1 : ℚ) * (2/10) + (n2 : ℚ) * (3/10)
          + (n3 : ℚ) * (25/100) - (n4 : ℚ) * (1/10))) := by
  simp only [BiasDetector.calculate_toxicity_score, h1, h2, h3, h4]

/-! ### Claim theorems -/

/-- Claim C10: the derived booleans of `SentimentScore` — `is_negative` holds
iff either scalar is below −0.2, `is_positive` iff both exceed 0.2,
`is_neutral` iff neither holds; positive and negative are mutually exclusive,
so every score falls in exactly one class. -/
theorem C10_sentiment_partition (s : SentimentScore) :
    (s.is_negative = true ↔ (s.textblob_score < -(2/10) ∨ s.vader_compound < -(2/10)))
    ∧ (s.is_positive = true ↔ (s.textblob_score > 2/10 ∧ s.vader_compound > 2/10))
    ∧ (s.is_neutral = true ↔ (s.is_negative = false ∧ s.is_positive = false))
    ∧ ¬(s.is_positive = true ∧ s.is_negative = true)
    ∧ ((s.is_negative = true ∧ s.is_positive = false ∧ s.is_neutral = false)
      ∨ (s.is_positive = true ∧ s.is_negative = false ∧ s.is_neutral = false)
      ∨ (s.is_neutral = true ∧ s.is_negative = false ∧ s.is_positive = false)) := by
  have hglue : ¬(s.is_positive = true ∧ s.is_negative = true) := by
    simp only [SentimentScore.is_negative, SentimentScore.is_positive, Bool.and_eq_true,
      Bool.or_eq_true, decide_eq_true_eq]
    rintro ⟨⟨ha, hb⟩, hc | hc⟩ <;> linarith
  refine ⟨?_, ?_, ?_, hglue, ?_⟩
  · simp [SentimentScore.is_negative]
  · simp [SentimentScore.is_positive]
  · simp [SentimentScore.is_neutral]
  · cases hneg : s.is_negative <;> cases hpos : s.is_positive
    · right; right
      simp [SentimentScore.is_neutral, hneg, hpos]
    · right; left
      simp [SentimentScore.is_neutral, hneg, hpos]
    · left
      simp [SentimentScore.is_neutral, hneg, hpos]
    · exact absurd ⟨hpos, hneg⟩ hglue

/-- Claim C5: the toxicity score equals the claim's reference definition (0.2
per negative keyword present, 0.3 per matching pattern, 0.25 per personal
attack phrase, −0.1 per constructive keyword, clamped to [0,1]), and the text
"Excellent work, consider refactoring" scores exactly 0. -/
theorem C5_toxicity_score (text : String) :
    BiasDetector.calculate_toxicity_score text = Spec.toxicity_spec text
    ∧ BiasDetector.calculate_toxicity_score "Excellent work, consider refactoring" = 0 := by
  constructor
  · simp only [BiasDetector.calculate_toxicity_score, Spec.toxicity_spec, sum_ite_countP]
  · rw [toxicity_eval "Excellent work, consider refactoring" 0 0 0 1 (by decide) (by decide)
      (by decide) (by decide)]
    norm_num

/-- Claim C6: the constructiveness score equals the claim's reference
definition (base 50, +5 per constructive indicator, +10 per solution
indicator, −10 per destructive indicator, +15 for a URL marker or the word
"example", clamped to [0,100]); it always lies in [0,100], and the text
"Excellent work, consider refactoring" scores exactly 55. -/
theorem C6_constructiveness_score (text : String) :
    0 ≤ BiasDetector.assess_constructiveness text
    ∧ BiasDetector.assess_constructiveness text ≤ 100
    ∧ BiasDetector.assess_constructiveness text = Spec.constructiveness_spec text
    ∧ BiasDetector.assess_constructiveness "Excellent work, consider refactoring" = 55 := by
  refine ⟨?_, ?_, ?_, by decide⟩
  · unfold BiasDetector.assess_constructiveness
    exact le_max_left 0 _
  · unfold BiasDetector.assess_constructiveness
    exact max_le (by norm_num) (min_le_left _ _)
  · simp only [BiasDetector.assess_constructiveness, Spec.constructiveness_spec, sum_ite_countP]
    cases h : containsSub (lowerChars text) "http".toList
        || containsSub (lowerChars text) "example".toList <;>
      simp only [h, if_true, if_false, Bool.false_eq_true, Bool.true_eq_false, ite_true,
        ite_false, if_pos, reduceIte] <;>
      (congr 1; (try congr 1); ring)

/-- Claim C7: the per-reviewer ratios are division-guarded (a zero review
count yields rate 0), and a developer group that yields no reviewer
statistics gets a `DeveloperTreatment` with `bias_risk = low` with no
exception raised. -/
theorem C7_division_guards :
    (∀ n : ℕ, BiasDetector.guarded_rate n 0 = 0)
    ∧ (∀ (comments : List ReviewComment) (r : String),
        (BiasDetector.actions_of comments r).total = 0 →
        (BiasDetector.reviewer_stat comments r).approval_rate = 0
        ∧ (BiasDetector.reviewer_stat comments r).change_request_rate = 0)
    ∧ (∀ developer : String,
        (BiasDetector.analyze_individual_developer_treatment developer []).bias_risk
          = .low) := by
  refine ⟨fun n => by simp [BiasDetector.guarded_rate], fun comments r h => ?_,
    fun developer => rfl⟩
  constructor <;> simp [BiasDetector.reviewer_stat, h, BiasDetector.guarded_rate]

/-- Claim C7 witness: the guards evaluated at concrete inputs. -/
theorem C7_division_guards_witness :
    (BiasDetector.reviewer_stat [] "r").approval_rate = 0
    ∧ (BiasDetector.reviewer_stat [] "r").change_request_rate = 0 :=
  C7_division_guards.2.1 [] "r" rfl

/-- Claim C8 counterexample: `ApprovalStatus("bogus")` — a status value that is
neither `approved` nor `requested_changes` — does not construct (`ValueError`
in the source), contradicting "constructing the core ReviewComment from such
a status string never fails". -/
theorem C8_unknown_status_counterexample :
    ApprovalStatus.ofString "bogus" = none
    ∧ "bogus" ≠ "approved" ∧ "bogus" ≠ "requested_changes" :=
  ⟨by decide, by decide, by decide⟩

/-- Claim C8 (amended): ingestion maps a body with no approval and no
change-request keyword to `commented`; every status string the ingestion can
produce constructs an `ApprovalStatus` (in particular `commented` does), but
an unknown status string is rejected by the `ReviewComment` constructor. -/
theorem C8_unknown_status_amended :
    (∀ body : String,
      (GitlabAnalyzer.approval_keywords.any fun k => containsSub (lowerChars body) k.toList)
          = false →
      (GitlabAnalyzer.changes_keywords.any fun k => containsSub (lowerChars body) k.toList)
          = false →
      GitlabAnalyzer.determine_approval_status body = "commented")
    ∧ (∀ body : String,
      (ApprovalStatus.ofString (GitlabAnalyzer.determine_approval_status body)).isSome = true)
    ∧ ApprovalStatus.ofString "commented" = some .commented := by
  refine ⟨fun body h1 h2 => ?_, fun body => ?_, rfl⟩
  · simp only [GitlabAnalyzer.determine_approval_status]
    rw [h1, h2]
    simp
  · simp only [GitlabAnalyzer.determine_approval_status]
    split
    · rfl
    · split <;> rfl

/-- Claim C9: on an empty (or empty-after-filtering) comment set the
`bias_detector.py` pattern detector returns `[]` without dividing by zero; the
`behavior_analyzer.py` twin, by contrast, divides by `len(comments)` first
and raises `ZeroDivisionError` (= `none`) on the empty set. -/
theorem C9_empty_pattern_detection :
    BehaviorAnalyzer.identify_negative_patterns "reviewer" [] = none
    ∧ (∀ r : String, BiasDetector.identify_negative_patterns r [] = [])
    ∧ (∀ (r : String) (comments : List ReviewComment),
        comments.filter (fun c => c.author == r) = [] →
        BiasDetector.identify_negative_patterns r comments = []) := by
  refine ⟨rfl, fun r => rfl, fun r comments h => ?_⟩
  simp [BiasDetector.identify_negative_patterns, h]

/-- Claim C2: the five-change-request scenario — reviewer sentiment −0.5,
zero toxicity, all `requested_changes` with no constructive keyword — yields
composite −0.8 and treatment "Potentially Toxic", and the pattern detector
flags both "consistently negative" and "blocks without constructive
feedback". -/
theorem C2_blocking_scenario :
    (BiasDetector.reviewer_stat c2_comments "reviewer1").avg_sentiment = -(5/10)
    ∧ (BiasDetector.reviewer_stat c2_comments "reviewer1").avg_toxicity = 0
    ∧ BiasDetector.composite_score
        (BiasDetector.reviewer_stat c2_comments "reviewer1").avg_sentiment
        (BiasDetector.reviewer_stat c2_comments "reviewer1").avg_toxicity
        (BiasDetector.actions_of c2_comments "reviewer1")
        (BiasDetector.actions_of c2_comments "reviewer1").total
        (BiasDetector.analyze_blocking_patterns
          (BiasDetector.blocking_comments c2_comments "reviewer1"))
        = -(8/10)
    ∧ (BiasDetector.reviewer_stat c2_comments "reviewer1").treatment = "Potentially Toxic"
    ∧ "Consistently negative sentiment in reviews"
        ∈ BiasDetector.identify_negative_patterns "reviewer1" c2_comments
    ∧ "Blocks MRs without providing constructive feedback"
        ∈ BiasDetector.identify_negative_patterns "reviewer1" c2_comments := by
  have hco : BiasDetector.comments_of c2_comments "reviewer1" = c2_comments := rfl
  have htox : BiasDetector.calculate_toxicity_score "no" = 0 := by
    rw [toxicity_eval "no" 0 0 0 0 (by decide) (by decide) (by decide) (by decide)]
    norm_num
  have hact : BiasDetector.actions_of c2_comments "reviewer1" = ⟨0, 5, 0⟩ := rfl
  have hbl : BiasDetector.blocking_comments c2_comments "reviewer1" = c2_comments := rfl
  have hassess : BiasDetector.assess_constructiveness "no" = 50 := by decide
  have hblocking : BiasDetector.analyze_blocking_patterns c2_comments = ⟨5, 50⟩ := by
    simp only [BiasDetector.analyze_blocking_patterns, c2_comments, mkComment]
    norm_num [hassess]
  have havg : (BiasDetector.reviewer_stat c2_comments "reviewer1").avg_sentiment = -(5/10) := by
    simp only [BiasDetector.reviewer_stat, hco]
    simp only [c2_comments, mkComment]
    norm_num
  have htoxavg : (BiasDetector.reviewer_stat c2_comments "reviewer1").avg_toxicity = 0 := by
    simp only [BiasDetector.reviewer_stat, hco]
    simp only [c2_comments, mkComment]
    norm_num [htox]
  have hcomposite : BiasDetector.composite_score (-(5/10)) 0 ⟨0, 5, 0⟩ 5 ⟨5, 50⟩ = -(8/10) := by
    simp only [BiasDetector.composite_score, BiasDetector.guarded_rate]
    norm_num
  have hfil : c2_comments.filter (fun c => c.author == "reviewer1") = c2_comments := rfl
  have hti : firstOccur (c2_comments.map fun c => c.mr_title) = ["Feature X"] := by decide
  have hcnt : c2_comments.countP (fun c => c.mr_title == "Feature X") = 5 := by decide
  have hlen : ("no" : String).length = 2 := rfl
  have hcr : c2_comments.filter
      (fun c => c.approval_status == ApprovalStatus.requested_changes) = c2_comments := rfl
  have hnc : c2_comments.countP (fun c =>
      !(BiasDetector.blocking_constructive_keywords.any fun k =>
        containsSub (lowerChars c.body) k.toList)) = 5 := by decide
  have hsc : c2_comments.countP (fun c => decide (c.body.length < 50)
      && decide (c.sentiment.textblob_score < -(2/10))) = 5 := by
    simp only [c2_comments, mkComment, List.countP_cons, List.countP_nil]
    norm_num [hlen]
  have hpat : BiasDetector.identify_negative_patterns "reviewer1" c2_comments
      = ["Consistently negative sentiment in reviews",
         "Shows nitpicking behavior with short critical comments",
         "Blocks MRs without providing constructive feedback"] := by
    simp only [BiasDetector.identify_negative_patterns, hfil, hti, List.map_cons, List.map_nil]
    simp only [hcnt, hcr, hsc, hnc]
    simp only [c2_comments, mkComment]
    norm_num [BiasDetector.excessive_comment_threshold]
  have hT : (BiasDetector.reviewer_stat c2_comments "reviewer1").treatment
      = BiasDetector.determine_treatment_level
          (BiasDetector.reviewer_stat c2_comments "reviewer1").avg_sentiment
          (BiasDetector.reviewer_stat c2_comments "reviewer1").avg_toxicity
          (BiasDetector.actions_of c2_comments "reviewer1")
          (BiasDetector.actions_of c2_comments "reviewer1").total
          (BiasDetector.analyze_blocking_patterns
            (BiasDetector.blocking_comments c2_comments "reviewer1")) := rfl
  refine ⟨havg, htoxavg, ?_, ?_, ?_, ?_⟩
  · rw [havg, htoxavg, hact, hbl, hblocking]
    exact hcomposite
  · rw [hT, havg, htoxavg, hact, hbl, hblocking]
    unfold BiasDetector.determine_treatment_level
    rw [show BiasDetector.Actions.total ⟨0, 5, 0⟩ = 5 from rfl, hcomposite]
    unfold BiasDetector.classify_composite
    norm_num
  · rw [hpat]; simp
  · rw [hpat]; simp

/-- Claim C1: for every reviewer aggregate as the pipeline produces it (its
blocking frequency is its `requested_changes` count), the treatment
classifier computes `composite = avg_sentiment + (-avg_toxicity * 0.5) +
blocking_penalty` with the claim's penalty rule, and maps the boundary
composites 0.3, 0.1, −0.1, −0.35, −0.6 to "Very Supportive", "Supportive",
"Neutral", "Very Critical", "Potentially Toxic". -/
theorem C1_treatment_classifier (avg_sentiment avg_toxicity : ℚ)
    (actions : BiasDetector.Actions) (total_reviews : ℕ)
    (blocking_analysis : BiasDetector.BlockingAnalysis)
    (h : blocking_analysis.frequency = actions.requested_changes) :
    BiasDetector.determine_treatment_level avg_sentiment avg_toxicity actions
        total_reviews blocking_analysis
      = BiasDetector.classify_composite
          (avg_sentiment + (-avg_toxicity * (5/10))
            + Spec.blocking_penalty_claim
                (BiasDetector.guarded_rate actions.requested_changes total_reviews)
                (decide (0 < blocking_analysis.frequency))
                blocking_analysis.avg_constructiveness)
    ∧ BiasDetector.classify_composite (3/10) = "Very Supportive"
    ∧ BiasDetector.classify_composite (1/10) = "Supportive"
    ∧ BiasDetector.classify_composite (-(1/10)) = "Neutral"
    ∧ BiasDetector.classify_composite (-(35/100)) = "Very Critical"
    ∧ BiasDetector.classify_composite (-(6/10)) = "Potentially Toxic" := by
  refine ⟨?_, by norm_num [BiasDetector.classify_composite],
    by norm_num [BiasDetector.classify_composite],
    by norm_num [BiasDetector.classify_composite],
    by norm_num [BiasDetector.classify_composite],
    by norm_num [BiasDetector.classify_composite]⟩
  unfold BiasDetector.determine_treatment_level
  congr 1
  simp only [BiasDetector.composite_score, Spec.blocking_penalty_claim]
  by_cases hf : 0 < blocking_analysis.frequency
  · simp [hf]
  · have hreq : actions.requested_changes = 0 := by omega
    have hrate : BiasDetector.guarded_rate actions.requested_changes total_reviews = 0 := by
      simp [BiasDetector.guarded_rate, hreq]
    rw [hrate]
    norm_num [hf]

/-- An author appears among the MR authors exactly when they have a positive
comment count. -/
theorem mem_mr_authors_iff (comments : List ReviewComment) (a : String) :
    a ∈ (comments.map fun c => c.mr_author) ↔ 0 < Spec.author_count comments a := by
  rw [Spec.author_count, List.length_pos_iff_exists_mem]
  simp only [List.mem_filter, List.mem_map, beq_iff_eq]

/-- Membership in `potential_bias_targets` is exactly: at least 5 comments and
mean sentiment below the −0.2 threshold of the source. -/
theorem mem_potential_bias_targets (comments : List ReviewComment) (a : String) :
    a ∈ BiasDetector.potential_bias_targets comments ↔
      (5 ≤ Spec.author_count comments a ∧ Spec.author_mean comments a < -(2/10)) := by
  have hlen : ∀ b : String,
      ((comments.filter fun c => c.mr_author == b).map fun c =>
        c.sentiment.textblob_score).length = Spec.author_count comments b := by
    intro b; simp [Spec.author_count]
  unfold BiasDetector.potential_bias_targets BiasDetector.sentiment_variance
    BiasDetector.author_sentiments
  simp only [List.mem_map, List.mem_filter, mem_firstOccur, Bool.and_eq_true,
    decide_eq_true_eq]
  constructor
  · rintro ⟨p, ⟨⟨⟨b, hb, rfl⟩, h3⟩, hmean, h5⟩, hba⟩
    obtain rfl : b = a := hba
    rw [hlen] at h5
    exact ⟨h5, hmean⟩
  · rintro ⟨h5, hmean⟩
    refine ⟨_, ⟨⟨⟨a, List.mem_map.mp ((mem_mr_authors_iff comments a).mpr (by omega)),
      rfl⟩, ?_⟩, ?_, ?_⟩, rfl⟩
    · rw [hlen]; omega
    · exact hmean
    · rw [hlen]; exact h5

/-- The length of the qualifying-author-means list is the count of distinct
authors with at least 3 comments. -/
theorem author_means_length (comments : List ReviewComment) :
    (BiasDetector.author_means comments).length = Spec.qualifying_author_count comments := by
  unfold BiasDetector.author_means BiasDetector.author_sentiments
    Spec.qualifying_author_count
  rw [List.length_map, ← List.countP_eq_length_filter, List.countP_map]
  refine List.countP_congr fun b _ => ?_
  simp [Function.comp, Spec.author_count]

/-- The code's two-sided guard on the bias score equals the claim's single
"at least two qualifying authors" guard. -/
theorem overall_bias_score_sq_eq (comments : List ReviewComment) :
    BiasDetector.overall_bias_score_sq comments
      = (if 2 ≤ Spec.qualifying_author_count comments then
          min 10000 (sample_variance (BiasDetector.author_means comments) * 10000)
        else 0) := by
  have h1 := author_means_length comments
  have h2 : (BiasDetector.author_means comments).length
      ≤ (BiasDetector.author_sentiments comments).length := by
    unfold BiasDetector.author_means
    rw [List.length_map, ← List.countP_eq_length_filter]
    exact List.countP_le_length _
  unfold BiasDetector.overall_bias_score_sq
  by_cases h : 2 ≤ Spec.qualifying_author_count comments
  · rw [if_pos (by omega), if_pos (by omega), if_pos h]
  · rw [if_neg h]
    by_cases h' : 1 < (BiasDetector.author_sentiments comments).length
    · rw [if_pos h', if_neg (by omega)]
    · rw [if_neg h']

/-- The flagged-author set of the code is nonempty exactly when the (−0.2)
flagging predicate holds of some author. -/
theorem targets_nonempty_iff (comments : List ReviewComment) :
    0 < (BiasDetector.potential_bias_targets comments).length
      ↔ Spec.any_flagged_spec comments = true := by
  rw [List.length_pos_iff_exists_mem]
  unfold Spec.any_flagged_spec
  simp only [List.any_eq_true, mem_firstOccur, Bool.and_eq_true, decide_eq_true_eq]
  constructor
  · rintro ⟨a, ha⟩
    obtain ⟨h5, hmean⟩ := (mem_potential_bias_targets comments a).mp ha
    exact ⟨a, (mem_mr_authors_iff comments a).mpr (by omega), h5, hmean⟩
  · rintro ⟨a, _, h5, hmean⟩
    exact ⟨a, (mem_potential_bias_targets comments a).mpr ⟨h5, hmean⟩⟩

/-- Claim C3 counterexample: on `c3_comments` the code flags `alice` (mean
−0.25 < −0.2 with 5 samples) and reports High risk, while the claim's
−0.3 flagging threshold flags nobody and its ladder yields Low. -/
theorem C3_team_bias_counterexample :
    "alice" ∈ BiasDetector.potential_bias_targets c3_comments
    ∧ ¬(Spec.author_mean c3_comments "alice" < -(3/10))
    ∧ BiasDetector.overall_risk c3_comments = .high
    ∧ Spec.overall_risk_claim c3_comments = .low := by
  have hSV : BiasDetector.sentiment_variance c3_comments
      = [("alice", [-(1/4), -(1/4), -(1/4), -(1/4), -(1/4)]),
         ("bob", [-(1/4), -(1/4), -(1/4)])] := rfl
  have hm5 : mean [-(1/4), -(1/4), -(1/4), -(1/4), -(1/4)] = -(1/4) := by norm_num [mean]
  have hm3 : mean [-(1/4), -(1/4), -(1/4)] = -(1/4) := by norm_num [mean]
  have hT : BiasDetector.potential_bias_targets c3_comments = ["alice"] := by
    unfold BiasDetector.potential_bias_targets
    rw [hSV]
    simp only [List.filter_cons, List.filter_nil, hm5, hm3, Bool.and_eq_true,
      decide_eq_true_eq, BiasDetector.negative_sentiment_threshold, List.length_cons,
      List.length_nil]
    norm_num
  have ham : Spec.author_mean c3_comments "alice" = -(1/4) := by
    show mean [-(1/4), -(1/4), -(1/4), -(1/4), -(1/4)] = -(1/4)
    exact hm5
  have hflt : (BiasDetector.author_sentiments c3_comments).filter
      (fun p => decide (3 ≤ p.2.length))
      = [("alice", [-(1/4), -(1/4), -(1/4), -(1/4), -(1/4)]),
         ("bob", [-(1/4), -(1/4), -(1/4)])] := rfl
  have hAM : BiasDetector.author_means c3_comments = [-(1/4), -(1/4)] := by
    unfold BiasDetector.author_means
    rw [hflt]
    simp only [List.map_cons, List.map_nil, hm5, hm3]
  have hrisk : BiasDetector.overall_risk c3_comments = .high := by
    unfold BiasDetector.overall_risk
    rw [hT]
    norm_num
  have hq : Spec.qualifying_author_count c3_comments = 2 := by decide
  have hflag : Spec.any_flagged_claim c3_comments = false := by
    unfold Spec.any_flagged_claim
    have h1 : firstOccur (c3_comments.map fun c => c.mr_author) = ["alice", "bob"] := by
      decide
    rw [h1]
    have hca : Spec.author_count c3_comments "alice" = 5 := by decide
    have hcb : Spec.author_count c3_comments "bob" = 3 := by decide
    have hmb : Spec.author_mean c3_comments "bob" = -(1/4) := by
      show mean [-(1/4), -(1/4), -(1/4)] = -(1/4)
      exact hm3
    simp only [List.any_cons, List.any_nil, hca, hcb, ham, hmb]
    norm_num
  have hclaim : Spec.overall_risk_claim c3_comments = .low := by
    have hsq : Spec.overall_bias_score_sq_claim c3_comments = 0 := by
      unfold Spec.overall_bias_score_sq_claim
      rw [hq, hAM]
      norm_num [sample_variance, mean]
    unfold Spec.overall_risk_claim
    rw [hsq, hflag]
    norm_num
  refine ⟨?_, ?_, hrisk, hclaim⟩
  · rw [hT]; simp
  · rw [ham]; norm_num

/-- Claim C3 (amended to the code's −0.2 flagging threshold): an author is
flagged exactly when their mean sentiment is below −0.2 with at least 5
samples; the squared overall bias score is `min(10000, variance·10000)` when
at least two qualifying authors (≥ 3 comments) exist and 0 otherwise; and the
risk ladder is High / Medium / Low on (squared score > 70², or some flagged
author) / (squared score > 40², or some flagged author) / else. -/
theorem C3_team_bias_amended (comments : List ReviewComment) :
    (∀ a : String, a ∈ BiasDetector.potential_bias_targets comments ↔
        (5 ≤ Spec.author_count comments a ∧ Spec.author_mean comments a < -(2/10)))
    ∧ BiasDetector.overall_bias_score_sq comments
        = (if 2 ≤ Spec.qualifying_author_count comments then
            min 10000 (sample_variance (BiasDetector.author_means comments) * 10000)
          else 0)
    ∧ BiasDetector.overall_risk comments
        = (if BiasDetector.overall_bias_score_sq comments > 4900
              ∨ Spec.any_flagged_spec comments = true then .high
          else if BiasDetector.overall_bias_score_sq comments > 1600
              ∨ Spec.any_flagged_spec comments = true then .medium
          else .low) := by
  refine ⟨mem_potential_bias_targets comments, overall_bias_score_sq_eq comments, ?_⟩
  have h := targets_nonempty_iff comments
  unfold BiasDetector.overall_risk
  simp only [h]

/-- Filtering reviewer/stat pairs on the stat and taking the length counts
the reviewers whose stat satisfies the predicate. -/
theorem length_filter_pair {β : Type} (g : String → β) (q : β → Bool) (l : List String) :
    ((l.map fun r => (r, g r)).filter fun p => q p.2).length
      = l.countP fun r => q (g r) := by
  induction l with
  | nil => rfl
  | cons a l ih => by_cases hqa : q (g a) <;> simp [hqa, List.countP_cons, ih]

/-- Filtering reviewer/stat pairs on the stat and projecting back to names
filters the reviewer list. -/
theorem map_fst_filter_pair {β : Type} (g : String → β) (q : β → Bool) (l : List String) :
    (((l.map fun r => (r, g r)).filter fun p => q p.2).map Prod.fst)
      = l.filter fun r => q (g r) := by
  induction l with
  | nil => rfl
  | cons a l ih => by_cases hqa : q (g a) <;> simp [hqa, ih]

/-- The source's `count > n * 0.5` majority test is the strict-majority test
`n < 2 * count`. -/
theorem half_lt_iff (c n : ℕ) : ((c : ℚ) > (n : ℚ) * (5/10)) ↔ n < 2 * c := by
  rw [gt_iff_lt, show ((n : ℚ) * (5/10)) = n / 2 by ring,
    div_lt_iff₀ (by norm_num : (0:ℚ) < 2)]
  constructor
  · intro h1
    have : (n : ℚ) < ((2 * c : ℕ) : ℚ) := by push_cast; linarith
    exact_mod_cast this
  · intro h1
    have : (n : ℚ) < ((2 * c : ℕ) : ℚ) := by exact_mod_cast h1
    push_cast at this
    linarith

/-- Claim C4: for a developer with at least one reviewer, the per-developer
analysis raises exactly the four claimed indicators — "generally negative"
iff the overall mean sentiment is below −0.2, "inconsistent treatment" iff
the reviewer-mean range exceeds 0.6, "majority critical" iff strictly more
than half the reviewers classify as Critical/Very Critical/Potentially
Toxic, "toxic behavior" iff some reviewer's average toxicity exceeds 0.5 —
and bias_risk is High at ≥ 3 fired indicators, Medium at ≥ 2, else Low. -/
theorem C4_developer_bias_indicators (developer : String) (comments : List ReviewComment)
    (h : comments ≠ []) :
    (BiasDetector.analyze_individual_developer_treatment developer comments).bias_indicators
      = (if Spec.overall_mean comments < -(2/10) then
          ["Receives generally negative feedback across the team"] else [])
        ++ (if Spec.sentiment_range_spec comments > 6/10 then
          ["Very inconsistent treatment from different reviewers"] else [])
        ++ (if (BiasDetector.reviewers comments).length < 2 * Spec.critical_count comments then
          ["Majority of reviewers are critical"] else [])
        ++ (if Spec.toxic_reviewers comments ≠ [] then
          ["Potentially toxic behavior from: " ++ joinComma (Spec.toxic_reviewers comments)]
          else [])
    ∧ (BiasDetector.analyze_individual_developer_treatment developer comments).bias_risk
      = (if (BiasDetector.analyze_individual_developer_treatment developer
            comments).bias_indicators.length ≥ 3 then .high
        else if (BiasDetector.analyze_individual_developer_treatment developer
            comments).bias_indicators.length ≥ 2 then .medium
        else .low) := by
  have hmapne : (comments.map fun c => c.author) ≠ [] := by simpa using h
  obtain ⟨r0, rrest, hR⟩ := List.exists_cons_of_ne_nil (firstOccur_ne_nil hmapne)
  have hR' : BiasDetector.reviewers comments = r0 :: rrest := hR
  have htbne : (comments.map fun c => c.sentiment.textblob_score).isEmpty = false :=
    List.isEmpty_eq_false.mpr (by simpa using h)
  have e1 : ∀ r, (BiasDetector.reviewer_stat comments r).avg_sentiment
      = Spec.reviewer_mean comments r := fun r => rfl
  have e2 : ∀ r, (BiasDetector.reviewer_stat comments r).avg_toxicity
      = Spec.reviewer_toxicity_mean comments r := fun r => rfl
  have ho : (comments.map fun c => c.sentiment.textblob_score).sum
      / ((comments.length : ℕ) : ℚ) = Spec.overall_mean comments := by
    simp [Spec.overall_mean, mean]
  have hrange : Spec.sentiment_range_spec comments
      = (rrest.map fun r => Spec.reviewer_mean comments r).foldl max
          (Spec.reviewer_mean comments r0)
        - (rrest.map fun r => Spec.reviewer_mean comments r).foldl min
          (Spec.reviewer_mean comments r0) := by
    unfold Spec.sentiment_range_spec
    rw [hR']
    simp only [List.map_cons]
  have hthr : BiasDetector.sentiment_variance_threshold + 2/10 = 6/10 := by
    norm_num [BiasDetector.sentiment_variance_threshold]
  have h3 : (((r0 :: rrest).map fun r => (r, BiasDetector.reviewer_stat comments r)).filter
      (fun p => ["Critical", "Very Critical", "Potentially Toxic"].contains p.2.treatment)).length
      = (r0 :: rrest).countP fun r =>
          ["Critical", "Very Critical", "Potentially Toxic"].contains
            (BiasDetector.reviewer_stat comments r).treatment :=
    length_filter_pair (fun r => BiasDetector.reviewer_stat comments r)
      (fun s => ["Critical", "Very Critical", "Potentially Toxic"].contains s.treatment)
      (r0 :: rrest)
  have hcrit : Spec.critical_count comments
      = (r0 :: rrest).countP fun r =>
          ["Critical", "Very Critical", "Potentially Toxic"].contains
            (BiasDetector.reviewer_stat comments r).treatment := by
    unfold Spec.critical_count
    rw [hR']
  have h4 : (((r0 :: rrest).map fun r => (r, BiasDetector.reviewer_stat comments r)).filter
      (fun p => decide (p.2.avg_toxicity > 5/10))).map Prod.fst
      = (r0 :: rrest).filter fun r =>
          decide ((BiasDetector.reviewer_stat comments r).avg_toxicity > 5/10) :=
    map_fst_filter_pair (fun r => BiasDetector.reviewer_stat comments r)
      (fun s => decide (s.avg_toxicity > 5/10)) (r0 :: rrest)
  have htoxrev : Spec.toxic_reviewers comments
      = (r0 :: rrest).filter fun r =>
          decide (Spec.reviewer_toxicity_mean comments r > 5/10) := by
    unfold Spec.toxic_reviewers
    rw [hR']
  constructor
  · simp only [BiasDetector.analyze_individual_developer_treatment, hR']
    simp only [htbne, Bool.false_eq_true, if_false, ite_false, ho,
      BiasDetector.negative_sentiment_threshold, hthr, h3, h4, e1, e2,
      List.length_map, half_lt_iff, Bool.not_eq_true', List.isEmpty_eq_false,
      ← hrange, ← hcrit, ← htoxrev]
  · simp only [BiasDetector.analyze_individual_developer_treatment, hR']

/-- Claim C4 witness: the analysis evaluated on a one-reviewer group. -/
theorem C4_developer_bias_indicators_witness :
    (BiasDetector.analyze_individual_developer_treatment "dev" c4_comments).bias_indicators
      = (if Spec.overall_mean c4_comments < -(2/10) then
          ["Receives generally negative feedback across the team"] else [])
        ++ (if Spec.sentiment_range_spec c4_comments > 6/10 then
          ["Very inconsistent treatment from different reviewers"] else [])
        ++ (if (BiasDetector.reviewers c4_comments).length
              < 2 * Spec.critical_count c4_comments then
          ["Majority of reviewers are critical"] else [])
        ++ (if Spec.toxic_reviewers c4_comments ≠ [] then
          ["Potentially toxic behavior from: " ++ joinComma (Spec.toxic_reviewers c4_comments)]
          else [])
    ∧ (BiasDetector.analyze_individual_developer_treatment "dev" c4_comments).bias_risk
      = (if (BiasDetector.analyze_individual_developer_treatment "dev"
            c4_comments).bias_indicators.length ≥ 3 then .high
        else if (BiasDetector.analyze_individual_developer_treatment "dev"
            c4_comments).bias_indicators.length ≥ 2 then .medium
        else .low) :=
  C4_developer_bias_indicators "dev" c4_comments (by simp [c4_comments])

/-- Claim C1 witness: the classifier evaluated at a concrete aggregate. -/
theorem C1_treatment_classifier_witness :
    BiasDetector.determine_treatment_level 0 0 ⟨0, 0, 0⟩ 0 ⟨0, 0⟩
      = BiasDetector.classify_composite
          (0 + (-0 * (5/10))
            + Spec.blocking_penalty_claim (BiasDetector.guarded_rate 0 0)
                (decide ((0:ℕ) < 0)) 0)
    ∧ BiasDetector.classify_composite (3/10) = "Very Supportive"
    ∧ BiasDetector.classify_composite (1/10) = "Supportive"
    ∧ BiasDetector.classify_composite (-(1/10)) = "Neutral"
    ∧ BiasDetector.classify_composite (-(35/100)) = "Very Critical"
    ∧ BiasDetector.classify_composite (-(6/10)) = "Potentially Toxic" :=
  C1_treatment_classifier 0 0 ⟨0, 0, 0⟩ 0 ⟨0, 0⟩ rfl

end GSA
